import Mathlib

/-!
Verification of the data-shaping core of the interview-analysis dashboard
(`src/app.py`): flattening of nested per-candidate JSON documents into flat
records, category/metric aggregation, and filter/selection state.

Python values flowing through the program are modelled by the `Json` type
below (`Json.null` stands for Python `None` / pandas `NaN`); Python `dict`s
are association lists with distinct keys (as produced by `json.load`);
JSON numbers are modelled as exact rationals.  Code that can raise an
exception is modelled in `Except Unit`.
-/

namespace App

/-- A JSON / Python value.  `null` doubles as Python `None` and pandas `NaN`. -/
inductive Json where
  | null : Json
  | bool : Bool → Json
  | num : ℚ → Json
  | str : String → Json
  | arr : List Json → Json
  | obj : List (String × Json) → Json

mutual

def Json.decEq : (a b : Json) → Decidable (a = b)
  | .null, .null => isTrue rfl
  | .bool a, .bool b =>
      match inferInstanceAs (Decidable (a = b)) with
      | isTrue h => isTrue (h ▸ rfl)
      | isFalse h => isFalse (fun he => h (Json.bool.inj he))
  | .num a, .num b =>
      match inferInstanceAs (Decidable (a = b)) with
      | isTrue h => isTrue (h ▸ rfl)
      | isFalse h => isFalse (fun he => h (Json.num.inj he))
  | .str a, .str b =>
      match inferInstanceAs (Decidable (a = b)) with
      | isTrue h => isTrue (h ▸ rfl)
      | isFalse h => isFalse (fun he => h (Json.str.inj he))
  | .arr a, .arr b =>
      match Json.decEqList a b with
      | isTrue h => isTrue (h ▸ rfl)
      | isFalse h => isFalse (fun he => h (Json.arr.inj he))
  | .obj a, .obj b =>
      match Json.decEqObj a b with
      | isTrue h => isTrue (h ▸ rfl)
      | isFalse h => isFalse (fun he => h (Json.obj.inj he))
  | .null, .bool _ => isFalse (fun h => Json.noConfusion h)
  | .null, .num _ => isFalse (fun h => Json.noConfusion h)
  | .null, .str _ => isFalse (fun h => Json.noConfusion h)
  | .null, .arr _ => isFalse (fun h => Json.noConfusion h)
  | .null, .obj _ => isFalse (fun h => Json.noConfusion h)
  | .bool _, .null => isFalse (fun h => Json.noConfusion h)
  | .bool _, .num _ => isFalse (fun h => Json.noConfusion h)
  | .bool _, .str _ => isFalse (fun h => Json.noConfusion h)
  | .bool _, .arr _ => isFalse (fun h => Json.noConfusion h)
  | .bool _, .obj _ => isFalse (fun h => Json.noConfusion h)
  | .num _, .null => isFalse (fun h => Json.noConfusion h)
  | .num _, .bool _ => isFalse (fun h => Json.noConfusion h)
  | .num _, .str _ => isFalse (fun h => Json.noConfusion h)
  | .num _, .arr _ => isFalse (fun h => Json.noConfusion h)
  | .num _, .obj _ => isFalse (fun h => Json.noConfusion h)
  | .str _, .null => isFalse (fun h => Json.noConfusion h)
  | .str _, .bool _ => isFalse (fun h => Json.noConfusion h)
  | .str _, .num _ => isFalse (fun h => Json.noConfusion h)
  | .str _, .arr _ => isFalse (fun h => Json.noConfusion h)
  | .str _, .obj _ => isFalse (fun h => Json.noConfusion h)
  | .arr _, .null => isFalse (fun h => Json.noConfusion h)
  | .arr _, .bool _ => isFalse (fun h => Json.noConfusion h)
  | .arr _, .num _ => isFalse (fun h => Json.noConfusion h)
  | .arr _, .str _ => isFalse (fun h => Json.noConfusion h)
  | .arr _, .obj _ => isFalse (fun h => Json.noConfusion h)
  | .obj _, .null => isFalse (fun h => Json.noConfusion h)
  | .obj _, .bool _ => isFalse (fun h => Json.noConfusion h)
  | .obj _, .num _ => isFalse (fun h => Json.noConfusion h)
  | .obj _, .str _ => isFalse (fun h => Json.noConfusion h)
  | .obj _, .arr _ => isFalse (fun h => Json.noConfusion h)

def Json.decEqList : (a b : List Json) → Decidable (a = b)
  | [], [] => isTrue rfl
  | [], _ :: _ => isFalse (fun h => List.noConfusion h)
  | _ :: _, [] => isFalse (fun h => List.noConfusion h)
  | x :: xs, y :: ys =>
      match Json.decEq x y, Json.decEqList xs ys with
      | isTrue h1, isTrue h2 => isTrue (h1 ▸ h2 ▸ rfl)
      | isFalse h1, _ => isFalse (fun he => h1 (List.cons.inj he).1)
      | _, isFalse h2 => isFalse (fun he => h2 (List.cons.inj he).2)

def Json.decEqObj : (a b : List (String × Json)) → Decidable (a = b)
  | [], [] => isTrue rfl
  | [], _ :: _ => isFalse (fun h => List.noConfusion h)
  | _ :: _, [] => isFalse (fun h => List.noConfusion h)
  | (k, v) :: xs, (k2, v2) :: ys =>
      match inferInstanceAs (Decidable (k = k2)), Json.decEq v v2,
            Json.decEqObj xs ys with
      | isTrue h1, isTrue h2, isTrue h3 => isTrue (h1 ▸ h2 ▸ h3 ▸ rfl)
      | isFalse h1, _, _ =>
          isFalse (fun he => h1 (congrArg Prod.fst (List.cons.inj he).1))
      | _, isFalse h2, _ =>
          isFalse (fun he => h2 (congrArg Prod.snd (List.cons.inj he).1))
      | _, _, isFalse h3 => isFalse (fun he => h3 (List.cons.inj he).2)

end

instance : DecidableEq Json := Json.decEq

/-- Is this value a Python `dict`?  (`isinstance(d, dict)`) -/
def Json.isDict : Json → Bool
  | .obj _ => true
  | _ => false

/-- Is this value a JSON number? -/
def Json.isNum : Json → Bool
  | .num _ => true
  | _ => false

/-- The rational carried by a number, with a default for non-numbers. -/
def Json.numD : Json → ℚ → ℚ
  | .num q, _ => q
  | _, d => d

/-- Key lookup in a Python `dict` (association list with distinct keys). -/
def getField : List (String × Json) → String → Option Json
  | [], _ => none
  | (k, v) :: rest, key => if k = key then some v else getField rest key

/-- Python `d.get(key, default)` on a `dict`. -/
def getFieldD (fields : List (String × Json)) (key : String) (dflt : Json) :
    Json :=
  (getField fields key).getD dflt

/-- The function `safe_get` (src/app.py lines 28-34): walk a key path; any step at which
the current value is not a `dict` yields `None`; an absent key yields the
default `None` of `d.get(k, None)` and the walk continues on `None`. -/
def safe_get (d : Json) (keys : List String) : Json :=
  match keys with
  | [] => d
  | k :: ks =>
      match d with
      | Json.obj fields => safe_get (getFieldD fields k Json.null) ks
      | _ => Json.null

/-- The two datasets selectable in the sidebar. -/
inductive Dataset where
  | bakerMcKenzie : Dataset
  | hku : Dataset
deriving DecidableEq

/-- The `video_base_path` chosen at the top of `load_data`
(src/app.py lines 18-23): a string for Baker McKenzie, `None` for HKU. -/
def video_base_path : Dataset → Json
  | .bakerMcKenzie => Json.str "baker_mckenzie_video"
  | .hku => Json.null

/-- One flat record (the `record` dict built in src/app.py lines 51-79):
identity and reference fields plus the 16 metric columns, each holding
whatever `safe_get` returned (possibly `null`). -/
structure FlatRecord where
  firstName : Json
  lastName : Json
  email : Json
  question : Json
  fileName : Json
  video_base_path : Json
  presignedURL : Json
  attire_score : Json
  background_score : Json
  video_quality_score : Json
  appearance_score : Json
  eye_contact_score : Json
  delivery_score : Json
  pronunciation_score : Json
  accent_score : Json
  irrelevant_responses_score : Json
  filler_words_score : Json
  pauses_score : Json
  grammar_score : Json
  structure_score : Json
  language_score : Json
  video_irregularities_score : Json
  ai_cheating_score : Json
deriving DecidableEq

/-- Python `s.split(sep)` for a one-character separator, over the
character list: split at every occurrence of `sep`, keeping empty parts
(so the result is never the empty list, and `"".split(sep) == ['']`). -/
def splitChar (sep : Char) : List Char → List (List Char)
  | [] => [[]]
  | c :: rest =>
      let r := splitChar sep rest
      if c = sep then [] :: r
      else
        match r with
        | [] => [[c]]
        | g :: gs => (c :: g) :: gs

/-- Last backslash-separated segment of a string:
Python `s.split('\\')[-1]` (src/app.py line 44), the separator being the
single backslash character.  `str.split` with an explicit separator always
returns a non-empty list, so `[-1]` is total. -/
def lastPathSegment (s : String) : String :=
  String.mk ((splitChar '\\' s.data).getLastD [])

/-- The synthetic single video `dict` built for an HKU candidate
(src/app.py lines 42-47), given the candidate's fields, assuming the
`localPath` read `candidate.get('localPath', '')` produced the string `s`
(otherwise `.split` raises, handled in `candidateRecords`). -/
def hkuVideoFields (cfs : List (String × Json)) (s : String) :
    List (String × Json) :=
  [("question", getFieldD cfs "question" Json.null),
   ("fileName", Json.str (lastPathSegment s)),
   ("presignedURL", getFieldD cfs "presignedURL" Json.null),
   ("analysis", getFieldD cfs "analysis" (Json.obj []))]

/-- The `record` dict of src/app.py lines 50-79, for a candidate `dict`
with fields `cfs` and a video `dict` with fields `vfs`.
`analysis = video.get('analysis', {})`; every metric column is a
`safe_get` over it. -/
def mkRecord (cfs vfs : List (String × Json)) (vbp : Json) : FlatRecord :=
  let analysis := getFieldD vfs "analysis" (Json.obj [])
  { firstName := getFieldD cfs "firstName" Json.null
    lastName := getFieldD cfs "lastName" Json.null
    email := getFieldD cfs "email" Json.null
    question := getFieldD vfs "question" Json.null
    fileName := getFieldD vfs "fileName" Json.null
    video_base_path := vbp
    presignedURL := getFieldD vfs "presignedURL" Json.null
    attire_score := safe_get analysis ["visual", "attire", "score"]
    background_score := safe_get analysis ["visual", "background", "score"]
    video_quality_score := safe_get analysis ["visual", "videoQuality", "score"]
    appearance_score := safe_get analysis ["visual", "appearance", "score"]
    eye_contact_score := safe_get analysis ["visual", "eyeContact", "score"]
    delivery_score := safe_get analysis ["audio", "delivery", "score"]
    pronunciation_score := safe_get analysis ["audio", "pronunciation", "score"]
    accent_score := safe_get analysis ["audio", "accent", "score"]
    irrelevant_responses_score :=
      safe_get analysis ["content", "irrelevantResponses", "score"]
    filler_words_score := safe_get analysis ["content", "fillerWords", "score"]
    pauses_score := safe_get analysis ["content", "pauses", "score"]
    grammar_score := safe_get analysis ["content", "grammar", "score"]
    structure_score := safe_get analysis ["content", "structure", "score"]
    language_score := safe_get analysis ["irregularities", "language", "score"]
    video_irregularities_score :=
      safe_get analysis ["irregularities", "videoIrregularities", "score"]
    ai_cheating_score := safe_get analysis ["irregularities", "aiCheating", "score"] }

/-- The records contributed by one candidate document (the body of
`for candidate in data`, src/app.py lines 37-80).  `Except.error` models a
raised exception: `.get` on a non-`dict` candidate or video raises
`AttributeError`; for HKU, `candidate.get('localPath', '').split('\\')`
raises when `localPath` is present with a non-string value; a non-list
`videos` value makes the loop or `video.get` raise (Python would admit an
empty non-list iterable, which never occurs in these documents). -/
def candidateRecords (ds : Dataset) (c : Json) : Except Unit (List FlatRecord) :=
  match ds, c with
  | .bakerMcKenzie, Json.obj cfs =>
      match getFieldD cfs "videos" (Json.arr []) with
      | Json.arr vs =>
          vs.mapM (fun v =>
            match v with
            | Json.obj vfs =>
                Except.ok (mkRecord cfs vfs (video_base_path .bakerMcKenzie))
            | _ => Except.error ())
      | _ => Except.error ()
  | .hku, Json.obj cfs =>
      match getFieldD cfs "localPath" (Json.str "") with
      | Json.str s =>
          Except.ok [mkRecord cfs (hkuVideoFields cfs s) (video_base_path .hku)]
      | _ => Except.error ()
  | _, _ => Except.error ()

/-- The function `load_data` (src/app.py lines 17-82) after `json.load`: flatten the
top-level list of candidate documents into the ordered list of flat
records; `Except.error` models any exception raised while flattening. -/
def load_data (ds : Dataset) (data : List Json) : Except Unit (List FlatRecord) :=
  (data.mapM (candidateRecords ds)).map List.flatten

/-- The four score categories (keys of `categories`, src/app.py lines 149-154). -/
inductive Category where
  | Visual : Category
  | Audio : Category
  | Content : Category
  | Irregularities : Category
deriving DecidableEq

/-- The 16 metric columns of the taxonomy, named after their dataframe
columns (src/app.py lines 60-78 and 150-153). -/
inductive Metric where
  | attire_score : Metric
  | background_score : Metric
  | video_quality_score : Metric
  | appearance_score : Metric
  | eye_contact_score : Metric
  | delivery_score : Metric
  | pronunciation_score : Metric
  | accent_score : Metric
  | irrelevant_responses_score : Metric
  | filler_words_score : Metric
  | pauses_score : Metric
  | grammar_score : Metric
  | structure_score : Metric
  | language_score : Metric
  | video_irregularities_score : Metric
  | ai_cheating_score : Metric
deriving DecidableEq

/-- The `categories` dict (src/app.py lines 149-154). -/
def categories : Category → List Metric
  | .Visual =>
      [.attire_score, .background_score, .video_quality_score,
       .appearance_score, .eye_contact_score]
  | .Audio => [.delivery_score, .pronunciation_score, .accent_score]
  | .Content =>
      [.irrelevant_responses_score, .filler_words_score, .pauses_score,
       .grammar_score, .structure_score]
  | .Irregularities =>
      [.language_score, .video_irregularities_score, .ai_cheating_score]

/-- All metric columns of the taxonomy, in category order. -/
def allMetrics : List Metric :=
  categories .Visual ++ categories .Audio ++ categories .Content ++
    categories .Irregularities

/-- The value a record holds in a metric column. -/
def metricGet : Metric → FlatRecord → Json
  | .attire_score, r => r.attire_score
  | .background_score, r => r.background_score
  | .video_quality_score, r => r.video_quality_score
  | .appearance_score, r => r.appearance_score
  | .eye_contact_score, r => r.eye_contact_score
  | .delivery_score, r => r.delivery_score
  | .pronunciation_score, r => r.pronunciation_score
  | .accent_score, r => r.accent_score
  | .irrelevant_responses_score, r => r.irrelevant_responses_score
  | .filler_words_score, r => r.filler_words_score
  | .pauses_score, r => r.pauses_score
  | .grammar_score, r => r.grammar_score
  | .structure_score, r => r.structure_score
  | .language_score, r => r.language_score
  | .video_irregularities_score, r => r.video_irregularities_score
  | .ai_cheating_score, r => r.ai_cheating_score

/-- The `safe_get` key path that fills a metric column
(src/app.py lines 60-78). -/
def metricPath : Metric → List String
  | .attire_score => ["visual", "attire", "score"]
  | .background_score => ["visual", "background", "score"]
  | .video_quality_score => ["visual", "videoQuality", "score"]
  | .appearance_score => ["visual", "appearance", "score"]
  | .eye_contact_score => ["visual", "eyeContact", "score"]
  | .delivery_score => ["audio", "delivery", "score"]
  | .pronunciation_score => ["audio", "pronunciation", "score"]
  | .accent_score => ["audio", "accent", "score"]
  | .irrelevant_responses_score => ["content", "irrelevantResponses", "score"]
  | .filler_words_score => ["content", "fillerWords", "score"]
  | .pauses_score => ["content", "pauses", "score"]
  | .grammar_score => ["content", "grammar", "score"]
  | .structure_score => ["content", "structure", "score"]
  | .language_score => ["irregularities", "language", "score"]
  | .video_irregularities_score => ["irregularities", "videoIrregularities", "score"]
  | .ai_cheating_score => ["irregularities", "aiCheating", "score"]

/-- pandas `Series.mean()` over one dataframe column (default `skipna`):
the mean of the numeric entries, ignoring nulls/NaN; `none` (NaN) when no
numeric entry remains.  Score cells only ever hold numbers or nulls
(scores are 0-10 numbers produced by the analysis pipeline). -/
def colMean (vals : List Json) : Option ℚ :=
  let nums := vals.filterMap (fun v =>
    match v with
    | Json.num q => some q
    | _ => none)
  if nums.isEmpty then none else some (nums.sum / (nums.length : ℚ))

/-- Column mean `df[m].mean()`: the per-metric average over a record subset, ignoring
nulls (src/app.py line 211, and the inner `.mean()` of line 159). -/
def metricMean (df : List FlatRecord) (m : Metric) : Option ℚ :=
  colMean (df.map (metricGet m))

/-- Category average `avg_scores[category] = df_filtered[metrics].mean().mean()`
(src/app.py lines 157-159): `df[metrics].mean()` is the Series of
per-column means (NaN for an all-null column), and the outer Series
`.mean()` again skips NaN — so the category average is the mean of the
per-metric column means over the metrics that have at least one non-null
value, and NaN (`none`) when every metric column is all-null. -/
def avg_scores (df : List FlatRecord) (c : Category) : Option ℚ :=
  let colMeans := (categories c).filterMap (fun m => metricMean df m)
  if colMeans.isEmpty then none else some (colMeans.sum / (colMeans.length : ℚ))

/-- Written from the spec's words (section 4.2): the category average as a
mean over records of the per-record mean over the category's metrics, both
means ignoring nulls ("mean of row means"). -/
def specRowMeanAvg (df : List FlatRecord) (c : Category) : Option ℚ :=
  let rowMeans := df.filterMap (fun r =>
    colMean ((categories c).map (fun m => metricGet m r)))
  if rowMeans.isEmpty then none else some (rowMeans.sum / (rowMeans.length : ℚ))

/-- Written from the amended claim's words: the category average as the
mean, over the category's metrics that have at least one non-null value,
of the per-metric column means ("mean of column means"). -/
def specColMeanAvg (df : List FlatRecord) (c : Category) : Option ℚ :=
  let ms := (categories c).filter (fun m => (metricMean df m).isSome)
  if ms.isEmpty then none
  else some ((ms.map (fun m => (metricMean df m).getD 0)).sum / (ms.length : ℚ))

/-- Column fill as in `df['firstName'].fillna('')` (src/app.py line 104):
(src/app.py line 104).  `fillna` turns a null into the empty string; string
concatenation with a non-string, non-null cell raises (`none`). -/
def fillnaStr : Json → Option String
  | Json.null => some ""
  | Json.str s => some s
  | _ => none

/-- The derived `fullName` column of one record (src/app.py line 104). -/
def fullName (r : FlatRecord) : Option String :=
  match fillnaStr r.firstName, fillnaStr r.lastName with
  | some f, some l => some (f ++ " " ++ l)
  | _, _ => none

/-- The filter block (src/app.py lines 126-133): keep rows whose
`fullName` equals the selected candidate unless it is `"All"`, then rows
whose `question` equals the selected question unless it is `"All"`.
The selected question is a `Json` because the HKU branch derives it from a
table cell (src/app.py line 116). -/
def df_filtered (df : List FlatRecord) (selC : String) (selQ : Json) :
    List FlatRecord :=
  let d1 :=
    if selC = "All" then df
    else df.filter (fun r => decide (fullName r = some selC))
  if selQ = Json.str "All" then d1
  else d1.filter (fun r => decide (r.question = selQ))

/-- The HKU auto-selected question (src/app.py line 116):
`df[df['fullName'] == selected_candidate]['question'].iloc[0]`, i.e. the
`question` of the first record whose `fullName` matches; `none` models the
`IndexError` of `.iloc[0]` on an empty selection. -/
def candidate_question (df : List FlatRecord) (selC : String) : Option Json :=
  ((df.filter (fun r => decide (fullName r = some selC))).head?).map
    (fun r => r.question)

/-- Well-formed candidate document: the shape on which flattening runs to
completion.  Baker McKenzie: a `dict` whose `videos` (when present) is a
list of `dict`s; HKU: a `dict` whose `localPath` (when present) is a
string. -/
def wfCandidate : Dataset → Json → Bool
  | .bakerMcKenzie, Json.obj cfs =>
      (match getFieldD cfs "videos" (Json.arr []) with
       | Json.arr vs => vs.all (fun v => v.isDict)
       | _ => false)
  | .hku, Json.obj cfs =>
      (match getFieldD cfs "localPath" (Json.str "") with
       | Json.str _ => true
       | _ => false)
  | _, _ => false

/-- The fields of a `dict` value (defaulting to no fields). -/
def objFields : Json → List (String × Json)
  | Json.obj fs => fs
  | _ => []

/-- The video documents of one candidate, in input order: the `videos`
list for Baker McKenzie, the one synthetic video `dict` for HKU. -/
def videosOf : Dataset → Json → List Json
  | .bakerMcKenzie, c =>
      (match getFieldD (objFields c) "videos" (Json.arr []) with
       | Json.arr vs => vs
       | _ => [])
  | .hku, c =>
      [Json.obj (hkuVideoFields (objFields c)
        (match getFieldD (objFields c) "localPath" (Json.str "") with
         | Json.str s => s
         | _ => ""))]

/-- Direct per-pair flattening: one record per (candidate, video) pair, in
traversal order (candidate order, then video order within candidate). -/
def flattenPairs (ds : Dataset) (data : List Json) : List FlatRecord :=
  (data.map (fun c =>
    (videosOf ds c).map (fun v =>
      mkRecord (objFields c) (objFields v) (video_base_path ds)))).flatten

/-- The rows entering the correlation between two metric columns:
pandas pairwise-complete observations — the (value, value) pairs of the
records in which both columns are non-null, in record order. -/
def pairedObs (df : List FlatRecord) (mi mj : Metric) : List (ℚ × ℚ) :=
  df.filterMap (fun r =>
    match metricGet mi r, metricGet mj r with
    | Json.num a, Json.num b => some (a, b)
    | _, _ => none)

/-- Numerator statistic of the Pearson coefficient over a list of paired
observations: `n·Σxy − Σx·Σy`. -/
def corrNum (ps : List (ℚ × ℚ)) : ℚ :=
  (ps.length : ℚ) * (ps.map (fun p => p.1 * p.2)).sum -
    (ps.map (fun p => p.1)).sum * (ps.map (fun p => p.2)).sum

/-- Squared denominator statistic of the Pearson coefficient:
`(n·Σx² − (Σx)²) · (n·Σy² − (Σy)²)`. -/
def corrDenSq (ps : List (ℚ × ℚ)) : ℚ :=
  ((ps.length : ℚ) * (ps.map (fun p => p.1 * p.1)).sum -
      (ps.map (fun p => p.1)).sum * (ps.map (fun p => p.1)).sum) *
    ((ps.length : ℚ) * (ps.map (fun p => p.2 * p.2)).sum -
      (ps.map (fun p => p.2)).sum * (ps.map (fun p => p.2)).sum)

/-- Modelled from the spec: `df_filtered[categories[c]].corr()`
(src/app.py line 194) is pandas library code, not in this repository; the
spec describes it as the pairwise Pearson correlation over
pairwise-complete observations.  The coefficient for a metric pair is
`corrNum / sqrt corrDenSq` of its paired observations; the matrix entry is
modelled by these exact sufficient statistics (the square root itself is
evaluated by the library in floating point). -/
def corrStats (df : List FlatRecord) (mi mj : Metric) : ℚ × ℚ :=
  (corrNum (pairedObs df mi mj), corrDenSq (pairedObs df mi mj))

/-- Written from the spec's words: the pairwise-complete observations
obtained by first restricting to the records where both metrics are
non-null and then reading both values off each surviving record. -/
def specPairedObs (df : List FlatRecord) (mi mj : Metric) : List (ℚ × ℚ) :=
  (df.filter (fun r => (metricGet mi r).isNum && (metricGet mj r).isNum)).map
    (fun r => ((metricGet mi r).numD 0, (metricGet mj r).numD 0))

/-! ## Helper lemmas -/

theorem safe_get_null (ks : List String) : safe_get Json.null ks = Json.null := by
  cases ks <;> rfl

theorem head_filter_eq_find {α : Type} (p : α → Bool) :
    ∀ l : List α, (l.filter p).head? = l.find? p := by
  intro l
  induction l with
  | nil => rfl
  | cons a l ih =>
      by_cases h : p a = true
      · simp [List.filter_cons, List.find?_cons, h]
      · simp only [Bool.not_eq_true] at h
        simp [List.filter_cons, List.find?_cons, h, ih]

theorem filterMap_eq_filter_map {α β : Type} (f : α → Option β) (d : β) :
    ∀ l : List α,
      l.filterMap f =
        (l.filter (fun a => (f a).isSome)).map (fun a => (f a).getD d) := by
  intro l
  induction l with
  | nil => rfl
  | cons a l ih =>
      cases h : f a with
      | none => simp [List.filterMap_cons, List.filter_cons, h, ih]
      | some b => simp [List.filterMap_cons, List.filter_cons, h, ih]

/-! ## C5 -/

/-- C5: filtering with candidate `"All"` and question `"All"` returns the
unfiltered full table, field for field. -/
theorem c5_all_all_roundtrip (df : List FlatRecord) :
    df_filtered df "All" (Json.str "All") = df := by
  unfold df_filtered
  simp

/-! ## C7 -/

/-- C7: on the empty record subset, every category average and every
per-metric average is null, and the (total) computation cannot error. -/
theorem c7_empty_subset_null :
    (∀ c : Category, avg_scores [] c = none) ∧
      (∀ m : Metric, metricMean [] m = none) := by
  constructor
  · intro c
    cases c <;> rfl
  · intro m
    cases m <;> rfl

/-! ## C8 -/

/-- C8: the candidate display name is `firstName ++ " " ++ lastName` with
a null name component replaced by the empty string, and (for string-or-null
name components) the construction cannot error. -/
theorem c8_fullname_join (r : FlatRecord) (f l : String)
    (hf : fillnaStr r.firstName = some f) (hl : fillnaStr r.lastName = some l) :
    fullName r = some (f ++ " " ++ l) := by
  unfold fullName
  rw [hf, hl]

/-- A record flattened from a candidate with `firstName = "Jane"` and
`lastName = null`. -/
def janeRecord : FlatRecord :=
  mkRecord [("firstName", Json.str "Jane"), ("lastName", Json.null)] [] Json.null

/-- Witness for C8: the Jane/null record renders as `"Jane "`, with the
trailing space coming from the empty-string substitution. -/
theorem c8_fullname_join_witness : fullName janeRecord = some "Jane " :=
  c8_fullname_join janeRecord "Jane" "" rfl rfl

/-! ## C2 -/

/-- Counterexample to C2: a variant-B (HKU) candidate whose `localPath`
field is present but null makes `candidate.get('localPath', '').split('\\')`
raise, so flattening this record does not complete. -/
theorem c2_counterexample :
    load_data .hku [Json.obj [("localPath", Json.null)]] = Except.error () := rfl

/-- C2 amended: every nested field lookup through `safe_get` yields null
(never an error) when the path hits an absent key or a non-mapping value;
flattening an HKU candidate completes whenever `localPath` is absent or a
string; and an absent `localPath` makes the derived file name the empty
string (the file-name derivation, unlike the `safe_get` fields, raises on
a present non-string `localPath`). -/
theorem c2_amended_safe_flattening :
    (∀ (fields : List (String × Json)) (k : String) (ks : List String),
        getField fields k = none →
          safe_get (Json.obj fields) (k :: ks) = Json.null) ∧
      (∀ (d : Json) (k : String) (ks : List String),
          d.isDict = false → safe_get d (k :: ks) = Json.null) ∧
      (∀ c : Json, wfCandidate .hku c = true →
          ∃ r, candidateRecords .hku c = Except.ok [r]) ∧
      (∀ cfs : List (String × Json), getField cfs "localPath" = none →
          ∃ r, candidateRecords .hku (Json.obj cfs) = Except.ok [r] ∧
            r.fileName = Json.str "") := by
  refine ⟨?_, ?_, ?_, ?_⟩
  · intro fields k ks h
    show safe_get (getFieldD fields k Json.null) ks = Json.null
    rw [getFieldD, h]
    exact safe_get_null ks
  · intro d k ks h
    cases d <;> simp_all [safe_get, Json.isDict]
  · intro c hwf
    cases c <;> simp_all [wfCandidate]
    case obj cfs =>
      cases hm : getFieldD cfs "localPath" (Json.str "") <;> rw [hm] at hwf <;>
        simp_all [candidateRecords, hm]
  · intro cfs h
    have hm : getFieldD cfs "localPath" (Json.str "") = Json.str "" := by
      rw [getFieldD, h]
      rfl
    refine ⟨mkRecord cfs (hkuVideoFields cfs "") (video_base_path .hku), ?_, rfl⟩
    simp [candidateRecords, hm]

/-- Witness for C2 amended: concrete absent-key and non-mapping lookups
yield null, and a concrete HKU candidate without `localPath` flattens
without error to a record with an empty file name. -/
theorem c2_amended_safe_flattening_witness :
    safe_get (Json.obj []) ["visual", "attire", "score"] = Json.null ∧
      safe_get (Json.str "oops") ["visual"] = Json.null ∧
      (∃ r, candidateRecords .hku (Json.obj []) = Except.ok [r]) ∧
      (∃ r, candidateRecords .hku (Json.obj []) = Except.ok [r] ∧
        r.fileName = Json.str "") :=
  ⟨c2_amended_safe_flattening.1 [] "visual" ["attire", "score"] rfl,
   c2_amended_safe_flattening.2.1 (Json.str "oops") "visual" [] rfl,
   c2_amended_safe_flattening.2.2.1 (Json.obj []) rfl,
   c2_amended_safe_flattening.2.2.2 [] rfl⟩

/-! ## C3 -/

/-- Counterexample to C3: the fixed taxonomy has 16 metric columns, not 18. -/
theorem c3_counterexample : allMetrics.length = 16 ∧ ¬allMetrics.length = 18 := by
  decide

/-- C3 amended: every flat record has exactly 16 metric columns — the
fixed four-group taxonomy (visual: attire, background, videoQuality,
appearance, eyeContact; audio: delivery, pronunciation, accent; content:
irrelevantResponses, fillerWords, pauses, grammar, structure;
irregularities: language, videoIrregularities, aiCheating) — each filled
by `safe_get` over the video's analysis and hence nullable. -/
theorem c3_amended_schema :
    ((categories .Visual).map metricPath =
        [["visual", "attire", "score"], ["visual", "background", "score"],
         ["visual", "videoQuality", "score"], ["visual", "appearance", "score"],
         ["visual", "eyeContact", "score"]]) ∧
      ((categories .Audio).map metricPath =
        [["audio", "delivery", "score"], ["audio", "pronunciation", "score"],
         ["audio", "accent", "score"]]) ∧
      ((categories .Content).map metricPath =
        [["content", "irrelevantResponses", "score"],
         ["content", "fillerWords", "score"], ["content", "pauses", "score"],
         ["content", "grammar", "score"], ["content", "structure", "score"]]) ∧
      ((categories .Irregularities).map metricPath =
        [["irregularities", "language", "score"],
         ["irregularities", "videoIrregularities", "score"],
         ["irregularities", "aiCheating", "score"]]) ∧
      allMetrics.length = 16 ∧ allMetrics.Nodup ∧
      (∀ (cfs vfs : List (String × Json)) (vbp : Json) (m : Metric),
        metricGet m (mkRecord cfs vfs vbp) =
          safe_get (getFieldD vfs "analysis" (Json.obj [])) (metricPath m)) ∧
      (∀ m : Metric, metricGet m (mkRecord [] [] Json.null) = Json.null) := by
  refine ⟨by decide, by decide, by decide, by decide, by decide, by decide, ?_, ?_⟩
  · intro cfs vfs vbp m
    cases m <;> rfl
  · intro m
    cases m <;> rfl

/-! ## C6 -/

/-- The single-video HKU candidate of the C6 scenario. -/
def hkuCandidateAB : Json :=
  Json.obj [("firstName", Json.str "A"), ("lastName", Json.str "B"),
            ("question", Json.str "Q1"), ("localPath", Json.str "videos\\q1.mp4")]

/-- C6: for the HKU dataset, selecting a candidate auto-derives the
question of the first record whose full name matches the selection; in the
scenario with candidate `{firstName: "A", lastName: "B", question: "Q1"}`,
selecting `"A B"` yields question `"Q1"`. -/
theorem c6_hku_auto_question :
    (∀ (df : List FlatRecord) (selC : String),
        candidate_question df selC =
          (df.find? (fun r => decide (fullName r = some selC))).map
            (fun r => r.question)) ∧
      (load_data .hku [hkuCandidateAB]).map
          (fun recs => candidate_question recs "A B") =
        Except.ok (some (Json.str "Q1")) := by
  constructor
  · intro df selC
    unfold candidate_question
    rw [head_filter_eq_find]
  · rfl

/-! ## C9 -/

/-- C9: each correlation-matrix entry is the Pearson coefficient (given by
its sufficient statistics `corrNum` and `corrDenSq`) over exactly the
pairwise-complete observations — the records in which both metrics are
non-null. -/
theorem c9_pairwise_pearson :
    ∀ (df : List FlatRecord) (mi mj : Metric),
      pairedObs df mi mj = specPairedObs df mi mj ∧
        corrStats df mi mj =
          (corrNum (specPairedObs df mi mj),
           corrDenSq (specPairedObs df mi mj)) := by
  have key : ∀ (df : List FlatRecord) (mi mj : Metric),
      pairedObs df mi mj = specPairedObs df mi mj := by
    intro df mi mj
    induction df with
    | nil => rfl
    | cons r df ih =>
        cases hi : metricGet mi r <;> cases hj : metricGet mj r <;>
          simp_all [pairedObs, specPairedObs, List.filterMap_cons,
            List.filter_cons, Json.isNum, Json.numD]
  intro df mi mj
  refine ⟨key df mi mj, ?_⟩
  rw [corrStats, key df mi mj]

/-! ## C10 -/

/-- C10: the filter step is a pure selection — the filtered output is a
subsequence of the base table (which is never mutated), and every output
record matches the candidate selection when it is not `"All"` and the
question selection when it is not `"All"`. -/
theorem c10_filter_invariants (df : List FlatRecord) (selC : String) (selQ : Json) :
    List.Sublist (df_filtered df selC selQ) df ∧
      ∀ r ∈ df_filtered df selC selQ,
        (selC ≠ "All" → fullName r = some selC) ∧
          (selQ ≠ Json.str "All" → r.question = selQ) := by
  unfold df_filtered
  dsimp only
  by_cases hc : selC = "All" <;> by_cases hq : selQ = Json.str "All"
  · rw [if_pos hq, if_pos hc]
    exact ⟨List.Sublist.refl df,
      fun r _ => ⟨fun h => absurd hc h, fun h => absurd hq h⟩⟩
  · rw [if_neg hq, if_pos hc]
    exact ⟨List.filter_sublist df, fun r hr =>
      ⟨fun h => absurd hc h,
       fun _ => of_decide_eq_true (List.mem_filter.mp hr).2⟩⟩
  · rw [if_pos hq, if_neg hc]
    exact ⟨List.filter_sublist df, fun r hr =>
      ⟨fun _ => of_decide_eq_true (List.mem_filter.mp hr).2,
       fun h => absurd hq h⟩⟩
  · rw [if_neg hq, if_neg hc]
    exact ⟨List.Sublist.trans (List.filter_sublist _) (List.filter_sublist df),
      fun r hr =>
        ⟨fun _ => of_decide_eq_true
            (List.mem_filter.mp (List.mem_of_mem_filter hr)).2,
         fun _ => of_decide_eq_true (List.mem_filter.mp hr).2⟩⟩

/-- A record for the C10 witness: flattened from a candidate named
`"A B"` answering question `"Q1"`. -/
def c10Record : FlatRecord :=
  mkRecord [("firstName", Json.str "A"), ("lastName", Json.str "B")]
    [("question", Json.str "Q1")] Json.null

/-- Witness for C10: filtering a one-record table by candidate `"A B"`
and question `"Q1"` keeps the record, which satisfies both predicates. -/
theorem c10_filter_invariants_witness :
    fullName c10Record = some "A B" ∧ c10Record.question = Json.str "Q1" :=
  ⟨((c10_filter_invariants [c10Record] "A B" (Json.str "Q1")).2 c10Record
      (by decide)).1 (by decide),
   ((c10_filter_invariants [c10Record] "A B" (Json.str "Q1")).2 c10Record
      (by decide)).2 (by decide)⟩

/-! ## C1 -/

/-- A flattened record whose only non-null metric is `attire_score = 0`. -/
def c1Record0 : FlatRecord :=
  mkRecord []
    [("analysis", Json.obj [("visual",
      Json.obj [("attire", Json.obj [("score", Json.num 0)])])])] Json.null

/-- A flattened record with `attire_score = 10`, `background_score = 10`
and all other metrics null. -/
def c1Record10 : FlatRecord :=
  mkRecord []
    [("analysis", Json.obj [("visual",
      Json.obj [("attire", Json.obj [("score", Json.num 10)]),
                ("background", Json.obj [("score", Json.num 10)])])])] Json.null

/-- Counterexample to C1: on a two-record subset with different null
patterns, the code's Visual average (`df[metrics].mean().mean()`, a mean
of per-metric column means) is `15/2`, while the claimed mean of per-record
row means is `5` — the two disagree. -/
theorem c1_counterexample :
    avg_scores [c1Record0, c1Record10] .Visual = some (15 / 2) ∧
      specRowMeanAvg [c1Record0, c1Record10] .Visual = some 5 ∧
      avg_scores [c1Record0, c1Record10] .Visual ≠
        specRowMeanAvg [c1Record0, c1Record10] .Visual := by
  refine ⟨?_, ?_, ?_⟩
  · simp [avg_scores, metricMean, colMean, categories, metricGet, c1Record0,
      c1Record10, mkRecord, safe_get, getFieldD, getField, List.filterMap]
    norm_num
  · simp [specRowMeanAvg, colMean, categories, metricGet, c1Record0,
      c1Record10, mkRecord, safe_get, getFieldD, getField, List.filterMap]
    norm_num
  · simp [avg_scores, specRowMeanAvg, metricMean, colMean, categories,
      metricGet, c1Record0, c1Record10, mkRecord, safe_get, getFieldD,
      getField, List.filterMap]
    norm_num

/-- The record of the C1 scenario: `visual.attire.score = 7` present and
`audio.delivery.score` absent. -/
def c1Record7 : FlatRecord :=
  mkRecord []
    [("analysis", Json.obj [("visual",
      Json.obj [("attire", Json.obj [("score", Json.num 7)])])])] Json.null

/-- C1 amended: the category average is the mean over the category's
metrics with at least one non-null value of the per-metric column means
(a mean of column means, both means ignoring nulls) — not a mean of row
means; the scenario still holds: a record with `attire = 7` and absent
`audio.delivery` contributes 7 to Visual and nothing (not 0) to Audio. -/
theorem c1_category_average_mean_of_column_means :
    (∀ (df : List FlatRecord) (c : Category),
        avg_scores df c = specColMeanAvg df c) ∧
      avg_scores [c1Record7] .Visual = some 7 ∧
      avg_scores [c1Record7] .Audio = none := by
  refine ⟨fun df c => ?_, ?_, by decide⟩
  · unfold avg_scores specColMeanAvg
    dsimp only
    rw [filterMap_eq_filter_map (fun m => metricMean df m) 0 (categories c)]
    cases hms : (categories c).filter (fun m => (metricMean df m).isSome) with
    | nil => rfl
    | cons m tl => simp
  · simp [avg_scores, metricMean, colMean, categories, metricGet, c1Record7,
      mkRecord, safe_get, getFieldD, getField, List.filterMap]

/-! ## C4 -/

theorem mapM_videos (cfs : List (String × Json)) (vbp : Json) :
    ∀ vs : List Json, vs.all (fun v => v.isDict) = true →
      (vs.mapM (fun v =>
        match v with
        | Json.obj vfs => Except.ok (mkRecord cfs vfs vbp)
        | _ => (Except.error () : Except Unit FlatRecord))) =
        Except.ok (vs.map (fun v => mkRecord cfs (objFields v) vbp)) := by
  intro vs h
  induction vs with
  | nil => rfl
  | cons v vs ih =>
      rw [List.all_cons, Bool.and_eq_true] at h
      obtain ⟨h1, h2⟩ := h
      cases v
      case obj vfs =>
        rw [List.mapM_cons, ih h2]
        rfl
      all_goals exact Bool.noConfusion h1

theorem candidateRecords_wf (ds : Dataset) (c : Json)
    (h : wfCandidate ds c = true) :
    candidateRecords ds c =
      Except.ok ((videosOf ds c).map
        (fun v => mkRecord (objFields c) (objFields v) (video_base_path ds))) := by
  cases ds with
  | bakerMcKenzie =>
      cases c
      case obj cfs =>
        unfold wfCandidate at h
        dsimp only at h
        cases hv : getFieldD cfs "videos" (Json.arr []) <;> rw [hv] at h
        case arr vs =>
          have hvm := mapM_videos cfs (video_base_path .bakerMcKenzie) vs h
          have hcr : candidateRecords .bakerMcKenzie (Json.obj cfs) =
              vs.mapM (fun v =>
                match v with
                | Json.obj vfs =>
                    Except.ok (mkRecord cfs vfs (video_base_path .bakerMcKenzie))
                | _ => Except.error ()) := by
            unfold candidateRecords
            dsimp only
            rw [hv]
          rw [hcr, hvm]
          simp [videosOf, objFields, hv]
        all_goals exact Bool.noConfusion h
      all_goals exact Bool.noConfusion h
  | hku =>
      cases c
      case obj cfs =>
        unfold wfCandidate at h
        dsimp only at h
        cases hm : getFieldD cfs "localPath" (Json.str "") <;> rw [hm] at h
        case str s =>
          simp [candidateRecords, videosOf, objFields, hm]
        all_goals exact Bool.noConfusion h
      all_goals exact Bool.noConfusion h

theorem mapM_candidates (ds : Dataset) :
    ∀ data : List Json, data.all (wfCandidate ds) = true →
      data.mapM (candidateRecords ds) =
        Except.ok (data.map (fun c =>
          (videosOf ds c).map
            (fun v => mkRecord (objFields c) (objFields v) (video_base_path ds)))) := by
  intro data h
  induction data with
  | nil => rfl
  | cons c data ih =>
      rw [List.all_cons, Bool.and_eq_true] at h
      rw [List.mapM_cons, candidateRecords_wf ds c h.1, ih h.2]
      rfl

/-- C4: on well-formed source documents, flattening succeeds and produces
exactly one flat record per (candidate, video) pair in input traversal
order — candidate order, then video order within candidate, no sorting —
so the record count is the total number of such pairs. -/
theorem c4_one_record_per_pair (ds : Dataset) (data : List Json)
    (h : data.all (wfCandidate ds) = true) :
    load_data ds data = Except.ok (flattenPairs ds data) ∧
      (flattenPairs ds data).length =
        (data.map (fun c => (videosOf ds c).length)).sum := by
  constructor
  · unfold load_data flattenPairs
    rw [mapM_candidates ds data h]
    rfl
  · unfold flattenPairs
    rw [List.length_flatten]
    simp [Function.comp_def]

/-- Concrete Baker McKenzie source for the C4 witness: one candidate with
two videos and one candidate with no `videos` field. -/
def c4Data : List Json :=
  [Json.obj [("firstName", Json.str "A"),
     ("videos", Json.arr [Json.obj [("question", Json.str "Q1")],
                          Json.obj [("question", Json.str "Q2")]])],
   Json.obj [("firstName", Json.str "B")]]

/-- Witness for C4: flattening the concrete two-candidate source succeeds
and yields one record per (candidate, video) pair. -/
theorem c4_one_record_per_pair_witness :
    load_data .bakerMcKenzie c4Data =
        Except.ok (flattenPairs .bakerMcKenzie c4Data) ∧
      (flattenPairs .bakerMcKenzie c4Data).length =
        (c4Data.map (fun c => (videosOf .bakerMcKenzie c).length)).sum :=
  c4_one_record_per_pair .bakerMcKenzie c4Data (by decide)

end App
